import Mathlib

/-!
Verification of the session/query orchestration layer of the Ashley
assistant (`src/app.py`, class `AshleyAIAssistant`).

The Streamlit session state is modelled in two layers:

* `RawSessionState` models `st.session_state` as a partial map over the
  five keys touched by `_initialize_session_state`: a field of value
  `none` means the key is absent.  `initialize_session_state` is the
  translation of the `for key, default_value in session_defaults.items()`
  loop with its `if key not in st.session_state` guard.

* `Session` models an initialized session (all keys present), the shape
  every operational entry point runs on.  `last_quick_start_question`
  holds `none` for Python `None`.

`query_ionos` lives in `src/backend` (an external collaborator, not part
  of this repository's `src/`); its outcome at a given call is modelled
  as an `Except String String` parameter: `Except.ok r` is a normal
  return of string `r`, `Except.error e` is a raised exception rendered
  as the string `e` (the code only consumes `str(e)`).

Side effects other than session mutation (Streamlit rendering, the
logger, and the outbound call itself) are recorded as an `Effect`
trace returned alongside the new session, in program order.

Python's truthiness test `not user_input` on a string holds exactly for
the empty string, and `str.split()` with no argument splits on runs of
whitespace discarding empty fields (`py_word_count`).
-/

inductive Role where
  | user
  | assistant
deriving DecidableEq

/-- A chat turn, one entry of `st.session_state["messages"]`. -/
structure Turn where
  role : Role
  content : String
deriving DecidableEq

/-- An initialized session: the five keys of `session_defaults`, all present. -/
structure Session where
  messages : List Turn
  conversation_tokens : Nat
  max_tokens : Nat
  theme : String
  last_quick_start_question : Option String
deriving DecidableEq

/-- The raw `st.session_state`: `none` means the key is absent. -/
structure RawSessionState where
  messages : Option (List Turn)
  conversation_tokens : Option Nat
  max_tokens : Option Nat
  theme : Option String
  last_quick_start_question : Option (Option String)
deriving DecidableEq

/-- Translation of `_initialize_session_state`: for each key of
`session_defaults`, if the key is not in the session state, set it to its
default; otherwise leave its value alone. -/
def initialize_session_state (s : RawSessionState) : RawSessionState :=
  { messages := some (s.messages.getD []),
    conversation_tokens := some (s.conversation_tokens.getD 0),
    max_tokens := some (s.max_tokens.getD 4000),
    theme := some (s.theme.getD "light"),
    last_quick_start_question := some (s.last_quick_start_question.getD none) }

/-- A brand-new Streamlit session: no keys set yet. -/
def freshRawSession : RawSessionState :=
  { messages := none, conversation_tokens := none, max_tokens := none,
    theme := none, last_quick_start_question := none }

/-- The session right after initialization from fresh: the values of
`session_defaults`. -/
def initSession : Session :=
  { messages := [], conversation_tokens := 0, max_tokens := 4000,
    theme := "light", last_quick_start_question := none }

/-- Observable side effects of a turn cycle, in program order. -/
inductive Effect where
  | renderError (msg : String)
  | renderChat (role : Role) (text : String)
  | sendQuery (text : String)
  | logError (msg : String)
deriving DecidableEq

/-- Count of maximal non-whitespace runs in a character list; `inWord`
records whether the previous character was non-whitespace. -/
def count_words : List Char → Bool → Nat
  | [], _ => 0
  | c :: cs, inWord =>
      if c.isWhitespace then count_words cs false
      else (if inWord then 0 else 1) + count_words cs true

/-- Python `len(response.split())`: `str.split()` with no argument splits
on runs of whitespace and drops empty fields, so its length is the number
of maximal non-whitespace runs. -/
def py_word_count (s : String) : Nat :=
  count_words s.data false

/-- The canned fallback substituted for an empty response. -/
def fallback_response : String :=
  "I couldn\x27t generate a meaningful response. Please try again."

/-- The validation error shown for invalid input. -/
def invalid_input_message : String :=
  "Invalid input. Please provide a valid query."

/-- The assistant-turn content synthesized in the `except` branch:
`f"❌ Error processing your request: \x7bstr(e)\x7d"`. -/
def error_message (e : String) : String :=
  "❌ Error processing your request: " ++ e

/-- The content of the assistant turn appended for outbound-call outcome
`q`: on `ok r`, `r` with the fallback substituted when `r` is empty; on
`error e`, the synthesized error message. -/
def assistant_reply (q : Except String String) : String :=
  match q with
  | Except.ok r => if r = "" then fallback_response else r
  | Except.error e => error_message e

/-- Translation of `AshleyAIAssistant.process_user_input`.  `q` is the
outcome of the `query_ionos(user_input)` call made inside the `try`
block (raising in `Except.error`); the validation branch never reaches
that call.  Returns the updated session and the effect trace. -/
def process_user_input (q : Except String String) (user_input : String)
    (s : Session) : Session × List Effect :=
  if user_input = "" then
    (s, [Effect.renderError invalid_input_message])
  else
    let s1 : Session := { s with messages := s.messages ++ [⟨Role.user, user_input⟩] }
    match q with
    | Except.ok r =>
        let response := if r = "" then fallback_response else r
        ({ s1 with
            messages := s1.messages ++ [⟨Role.assistant, response⟩],
            conversation_tokens := s1.conversation_tokens + py_word_count response },
         [Effect.renderChat Role.user user_input,
          Effect.sendQuery user_input,
          Effect.renderChat Role.assistant response])
    | Except.error e =>
        ({ s1 with messages := s1.messages ++ [⟨Role.assistant, error_message e⟩] },
         [Effect.renderChat Role.user user_input,
          Effect.sendQuery user_input,
          Effect.logError ("Query Error: " ++ e),
          Effect.renderError (error_message e)])

/-- The preset prompts of `self.quick_start_questions`. -/
def quick_start_questions : List String :=
  ["What cloud services does IONOS offer?",
   "Can you help me set up a bidriectional firewall?",
   "What are the benefits of cloud computing?"]

/-- Translation of the quick-start button handler in `render_sidebar`:
when the clicked question differs from `last_quick_start_question`, the
marker is set to the question and `process_user_input(question)` runs;
otherwise nothing happens. -/
def quick_start_click (q : Except String String) (question : String)
    (s : Session) : Session × List Effect :=
  if s.last_quick_start_question = some question then
    (s, [])
  else
    process_user_input q question
      { s with last_quick_start_question := some question }

/-- A session-mutating trigger: a free-form chat submission
(`handle_chat_interaction`) or a quick-start button click
(`render_sidebar`), each carrying the outcome of the outbound call it
would make. -/
inductive Event where
  | chat (q : Except String String) (input : String)
  | quickStart (q : Except String String) (question : String)

/-- The session reached after one trigger. -/
def step (s : Session) (e : Event) : Session :=
  match e with
  | Event.chat q input => (process_user_input q input s).1
  | Event.quickStart q question => (quick_start_click q question s).1

/-- The session reached after a sequence of triggers. -/
def runEvents (s : Session) (es : List Event) : Session :=
  es.foldl step s

/-- A history made of consecutive (user, assistant) pairs: every user
turn is immediately followed by exactly one assistant turn. -/
def isTurnPairs : List Turn → Bool
  | [] => true
  | ⟨Role.user, _⟩ :: ⟨Role.assistant, _⟩ :: rest => isTurnPairs rest
  | _ => false

theorem process_user_input_messages_eq (q : Except String String) (input : String)
    (s : Session) (h : input ≠ "") :
    (process_user_input q input s).1.messages =
      s.messages ++ [⟨Role.user, input⟩, ⟨Role.assistant, assistant_reply q⟩] := by
  cases q with
  | ok r => simp [process_user_input, h, assistant_reply]
  | error e => simp [process_user_input, h, assistant_reply]

theorem process_user_input_marker_eq (q : Except String String) (input : String)
    (s : Session) :
    (process_user_input q input s).1.last_quick_start_question =
      s.last_quick_start_question := by
  by_cases h : input = "" <;> cases q <;> simp [process_user_input, h]

theorem process_user_input_tokens_le (q : Except String String) (input : String)
    (s : Session) :
    s.conversation_tokens ≤ (process_user_input q input s).1.conversation_tokens := by
  by_cases h : input = "" <;> cases q <;> simp [process_user_input, h]

theorem isTurnPairs_append_pair (u a : String) :
    ∀ l : List Turn, isTurnPairs l = true →
      isTurnPairs (l ++ [⟨Role.user, u⟩, ⟨Role.assistant, a⟩]) = true
  | [], _ => by simp [isTurnPairs]
  | ⟨Role.user, _⟩ :: ⟨Role.assistant, _⟩ :: rest, h => by
      simp only [isTurnPairs] at h
      simpa only [List.cons_append, isTurnPairs] using
        isTurnPairs_append_pair u a rest h
  | ⟨Role.user, _⟩ :: ⟨Role.user, _⟩ :: _, h => by simp [isTurnPairs] at h
  | [⟨Role.user, _⟩], h => by simp [isTurnPairs] at h
  | ⟨Role.assistant, _⟩ :: _, h => by simp [isTurnPairs] at h

theorem step_turnPairs (s : Session) (e : Event)
    (h : isTurnPairs s.messages = true) :
    isTurnPairs (step s e).messages = true := by
  cases e with
  | chat q input =>
      by_cases hi : input = ""
      · simpa [step, process_user_input, hi] using h
      · rw [show (step s (Event.chat q input)).messages =
            (process_user_input q input s).1.messages from rfl,
          process_user_input_messages_eq q input s hi]
        exact isTurnPairs_append_pair _ _ _ h
  | quickStart q question =>
      by_cases hg : s.last_quick_start_question = some question
      · simpa [step, quick_start_click, hg] using h
      · by_cases hq : question = ""
        · subst hq
          simpa [step, quick_start_click, hg, process_user_input] using h
        · rw [show (step s (Event.quickStart q question)).messages =
              (process_user_input q question
                { s with last_quick_start_question := some question }).1.messages by
                simp [step, quick_start_click, hg],
            process_user_input_messages_eq q question _ hq]
          exact isTurnPairs_append_pair _ _ _ h

theorem runEvents_turnPairs (es : List Event) (s : Session)
    (h : isTurnPairs s.messages = true) :
    isTurnPairs (runEvents s es).messages = true := by
  induction es generalizing s with
  | nil => exact h
  | cons e rest ih =>
      have hstep := step_turnPairs s e h
      simpa [runEvents, List.foldl] using ih (step s e) hstep

theorem step_tokens_le (s : Session) (e : Event) :
    s.conversation_tokens ≤ (step s e).conversation_tokens := by
  cases e with
  | chat q input => exact process_user_input_tokens_le q input s
  | quickStart q question =>
      by_cases hg : s.last_quick_start_question = some question
      · simp [step, quick_start_click, hg]
      · simpa [step, quick_start_click, hg] using
          process_user_input_tokens_le q question
            { s with last_quick_start_question := some question }

/-- C1: for every non-empty string input, `process_user_input` appends
exactly one user turn carrying that input and then exactly one assistant
turn (success text or error text), whatever the outcome of the
`query_ionos` call; consequently every history reachable from the fresh
session consists of (user, assistant) pairs, i.e. each user turn is
immediately followed by exactly one assistant turn. -/
theorem C1_user_turn_followed_by_assistant :
    (∀ (q : Except String String) (input : String) (s : Session), input ≠ "" →
      (process_user_input q input s).1.messages =
        s.messages ++ [⟨Role.user, input⟩, ⟨Role.assistant, assistant_reply q⟩]) ∧
    (∀ es : List Event, isTurnPairs (runEvents initSession es).messages = true) := by
  constructor
  · exact process_user_input_messages_eq
  · intro es
    exact runEvents_turnPairs es initSession rfl

/-- Witness for C1 at input `"ping"`, the call returning `"pong"`, on
the fresh session. -/
theorem C1_witness :
    (process_user_input (Except.ok "pong") "ping" initSession).1.messages =
      initSession.messages ++
        [⟨Role.user, "ping"⟩, ⟨Role.assistant, assistant_reply (Except.ok "pong")⟩] :=
  C1_user_turn_followed_by_assistant.1 (Except.ok "pong") "ping" initSession (by decide)


/-- C2 counterexample: the whitespace-only input `" "` is NOT rejected by
the validation check `not user_input or not isinstance(user_input, str)`
(a non-empty string is truthy), so the history does gain turns: its
length changes from 0 to 2 on the fresh session. -/
theorem C2_counterexample :
    ¬ (process_user_input (Except.ok "pong") " " initSession).1.messages.length =
        initSession.messages.length := by decide

/-- C2 (amended): for the empty-string input, `process_user_input`
appends no turn, leaves the session (hence the history length)
unchanged, and reports a validation error without dispatching a query
(the effect trace is exactly the validation error box, with no
`sendQuery` effect); whitespace-only non-empty inputs are not rejected. -/
theorem C2_empty_input_no_turn :
    ∀ (q : Except String String) (s : Session),
      process_user_input q "" s = (s, [Effect.renderError invalid_input_message]) := by
  intro q s
  rfl

/-- C3 counterexample: in the quick-start scenario, the response
`"IONOS offers Compute, Storage, and Managed Kubernetes."` has 7
whitespace-delimited words, not 6, so `conversation_tokens` does not
increase by exactly 6. -/
theorem C3_counterexample :
    ¬ (process_user_input
        (Except.ok "IONOS offers Compute, Storage, and Managed Kubernetes.")
        "What cloud services does IONOS offer?" initSession).1.conversation_tokens =
        initSession.conversation_tokens + 6 := by decide

/-- C3 (amended): for the input
`"What cloud services does IONOS offer?"` with the call returning
`"IONOS offers Compute, Storage, and Managed Kubernetes."`, the history
gains exactly 2 turns and `conversation_tokens` increases by exactly 7,
the whitespace-delimited word count of the response. -/
theorem C3_scenario_seven_words :
    (process_user_input
        (Except.ok "IONOS offers Compute, Storage, and Managed Kubernetes.")
        "What cloud services does IONOS offer?" initSession).1.messages.length =
      initSession.messages.length + 2 ∧
    (process_user_input
        (Except.ok "IONOS offers Compute, Storage, and Managed Kubernetes.")
        "What cloud services does IONOS offer?" initSession).1.conversation_tokens =
      initSession.conversation_tokens +
        py_word_count "IONOS offers Compute, Storage, and Managed Kubernetes." ∧
    py_word_count "IONOS offers Compute, Storage, and Managed Kubernetes." = 7 := by
  refine ⟨by decide, by decide, by decide⟩

/-- C4: for every valid (non-empty) input, when the `query_ionos` call
raises, `process_user_input` returns normally (the exception does not
escape), appends the user turn and then an assistant turn whose content
is the error-marked message, and leaves `conversation_tokens` exactly as
it was before the call. -/
theorem C4_exception_contained :
    ∀ (input e : String) (s : Session), input ≠ "" →
      (process_user_input (Except.error e) input s).1.messages =
        s.messages ++ [⟨Role.user, input⟩,
          ⟨Role.assistant, "❌ Error processing your request: " ++ e⟩] ∧
      (process_user_input (Except.error e) input s).1.conversation_tokens =
        s.conversation_tokens := by
  intro input e s h
  constructor
  · simpa [assistant_reply, error_message] using
      process_user_input_messages_eq (Except.error e) input s h
  · simp [process_user_input, h]

/-- Witness for C4 at input `"ping"` and exception text `"boom"` on the
fresh session. -/
theorem C4_witness :
    (process_user_input (Except.error "boom") "ping" initSession).1.messages =
      initSession.messages ++ [⟨Role.user, "ping"⟩,
        ⟨Role.assistant, "❌ Error processing your request: " ++ "boom"⟩] ∧
    (process_user_input (Except.error "boom") "ping" initSession).1.conversation_tokens =
      initSession.conversation_tokens :=
  C4_exception_contained "ping" "boom" initSession (by decide)

/-- C5: for every valid (non-empty) input, when the `query_ionos` call
returns the empty string, the appended assistant turn's content is
exactly the fallback message and the success branch runs: the effect
trace is the success trace (user markdown, the outbound query, assistant
markdown — no error box and no error log) and the word count of the
fallback is added to `conversation_tokens`. -/
theorem C5_empty_response_fallback :
    ∀ (input : String) (s : Session), input ≠ "" →
      process_user_input (Except.ok "") input s =
        ({ s with
            messages := s.messages ++
              [⟨Role.user, input⟩, ⟨Role.assistant, fallback_response⟩],
            conversation_tokens := s.conversation_tokens + py_word_count fallback_response },
         [Effect.renderChat Role.user input,
          Effect.sendQuery input,
          Effect.renderChat Role.assistant fallback_response]) := by
  intro input s h
  simp [process_user_input, h]

/-- Witness for C5 at input `"ping"` on the fresh session. -/
theorem C5_witness :
    process_user_input (Except.ok "") "ping" initSession =
      ({ initSession with
          messages := initSession.messages ++
            [⟨Role.user, "ping"⟩, ⟨Role.assistant, fallback_response⟩],
          conversation_tokens :=
            initSession.conversation_tokens + py_word_count fallback_response },
       [Effect.renderChat Role.user "ping",
        Effect.sendQuery "ping",
        Effect.renderChat Role.assistant fallback_response]) :=
  C5_empty_response_fallback "ping" initSession (by decide)

/-- C6: for every quick-start prompt, clicking it when it is not the
current `last_quick_start_question` runs exactly one turn cycle (the
marker is set to the prompt and the user/assistant pair is appended),
and clicking the same prompt again with no intervening different
selection is a no-op: the second click finds the marker equal to the
prompt, mutates nothing, and produces no effects (in particular no
dispatch). -/
theorem C6_quick_start_dedup :
    ∀ p ∈ quick_start_questions, ∀ (q q2 : Except String String) (s : Session),
      s.last_quick_start_question ≠ some p →
      (quick_start_click q p s).1.last_quick_start_question = some p ∧
      quick_start_click q2 p (quick_start_click q p s).1 =
        ((quick_start_click q p s).1, []) ∧
      (quick_start_click q p s).1.messages =
        s.messages ++ [⟨Role.user, p⟩, ⟨Role.assistant, assistant_reply q⟩] := by
  intro p hp q q2 s h
  have hne : p ≠ "" := by
    simp only [quick_start_questions, List.mem_cons, List.not_mem_nil, or_false] at hp
    rcases hp with rfl | rfl | rfl <;> decide
  have hmarker : (quick_start_click q p s).1.last_quick_start_question = some p := by
    rw [show (quick_start_click q p s).1 =
        (process_user_input q p { s with last_quick_start_question := some p }).1 by
          simp [quick_start_click, h]]
    rw [process_user_input_marker_eq]
  have hsecond : ∀ t : Session, t.last_quick_start_question = some p →
      quick_start_click q2 p t = (t, []) := by
    intro t ht
    simp [quick_start_click, ht]
  refine ⟨hmarker, hsecond _ hmarker, ?_⟩
  rw [show (quick_start_click q p s).1 =
      (process_user_input q p { s with last_quick_start_question := some p }).1 by
        simp [quick_start_click, h]]
  rw [process_user_input_messages_eq q p _ hne]

/-- Witness for C6 at the first quick-start question on the fresh
session, with the two potential calls returning `"a"` and `"b"`. -/
theorem C6_witness :
    (quick_start_click (Except.ok "a") "What cloud services does IONOS offer?"
        initSession).1.last_quick_start_question =
      some "What cloud services does IONOS offer?" ∧
    quick_start_click (Except.ok "b") "What cloud services does IONOS offer?"
        (quick_start_click (Except.ok "a") "What cloud services does IONOS offer?"
          initSession).1 =
      ((quick_start_click (Except.ok "a") "What cloud services does IONOS offer?"
          initSession).1, []) ∧
    (quick_start_click (Except.ok "a") "What cloud services does IONOS offer?"
        initSession).1.messages =
      initSession.messages ++
        [⟨Role.user, "What cloud services does IONOS offer?"⟩,
         ⟨Role.assistant, assistant_reply (Except.ok "a")⟩] :=
  C6_quick_start_dedup "What cloud services does IONOS offer?" (by decide)
    (Except.ok "a") (Except.ok "b") initSession (by decide)

/-- C7: session-state initialization is guarded by an existence check:
running it again is idempotent, every key already present keeps its
value, and on a brand-new session it sets the history to `[]`, the token
estimate to `0`, and the quick-start marker to `None` (with the other
defaults). -/
theorem C7_init_guarded_idempotent :
    (∀ s : RawSessionState,
      initialize_session_state (initialize_session_state s) =
        initialize_session_state s) ∧
    (∀ (s : RawSessionState) (v : List Turn), s.messages = some v →
      (initialize_session_state s).messages = some v) ∧
    (∀ (s : RawSessionState) (v : Nat), s.conversation_tokens = some v →
      (initialize_session_state s).conversation_tokens = some v) ∧
    (∀ (s : RawSessionState) (v : Nat), s.max_tokens = some v →
      (initialize_session_state s).max_tokens = some v) ∧
    (∀ (s : RawSessionState) (v : String), s.theme = some v →
      (initialize_session_state s).theme = some v) ∧
    (∀ (s : RawSessionState) (v : Option String), s.last_quick_start_question = some v →
      (initialize_session_state s).last_quick_start_question = some v) ∧
    initialize_session_state freshRawSession =
      { messages := some [], conversation_tokens := some 0, max_tokens := some 4000,
        theme := some "light", last_quick_start_question := some none } := by
  refine ⟨?_, ?_, ?_, ?_, ?_, ?_, rfl⟩
  · intro s; simp [initialize_session_state]
  all_goals intro s v h; simp [initialize_session_state, h]

/-- Witness for C7 on a session whose five keys all hold non-default
values: each is preserved by re-initialization. -/
theorem C7_witness :
    (initialize_session_state
        { messages := some [⟨Role.user, "hi"⟩], conversation_tokens := some 5,
          max_tokens := some 9, theme := some "dark",
          last_quick_start_question := some (some "x") }).messages =
      some [⟨Role.user, "hi"⟩] ∧
    (initialize_session_state
        { messages := some [⟨Role.user, "hi"⟩], conversation_tokens := some 5,
          max_tokens := some 9, theme := some "dark",
          last_quick_start_question := some (some "x") }).conversation_tokens = some 5 ∧
    (initialize_session_state
        { messages := some [⟨Role.user, "hi"⟩], conversation_tokens := some 5,
          max_tokens := some 9, theme := some "dark",
          last_quick_start_question := some (some "x") }).max_tokens = some 9 ∧
    (initialize_session_state
        { messages := some [⟨Role.user, "hi"⟩], conversation_tokens := some 5,
          max_tokens := some 9, theme := some "dark",
          last_quick_start_question := some (some "x") }).theme = some "dark" ∧
    (initialize_session_state
        { messages := some [⟨Role.user, "hi"⟩], conversation_tokens := some 5,
          max_tokens := some 9, theme := some "dark",
          last_quick_start_question := some (some "x") }).last_quick_start_question =
      some (some "x") :=
  ⟨C7_init_guarded_idempotent.2.1 _ _ rfl,
   C7_init_guarded_idempotent.2.2.1 _ _ rfl,
   C7_init_guarded_idempotent.2.2.2.1 _ _ rfl,
   C7_init_guarded_idempotent.2.2.2.2.1 _ _ rfl,
   C7_init_guarded_idempotent.2.2.2.2.2.1 _ _ rfl⟩

/-- C8: `conversation_tokens` never decreases across any sequence of
free-form submissions and quick-start clicks (each mutation adds a
non-negative word count; the value is a natural number, hence always
at least 0). -/
theorem C8_tokens_monotone :
    ∀ (s : Session) (es : List Event),
      s.conversation_tokens ≤ (runEvents s es).conversation_tokens := by
  intro s es
  induction es generalizing s with
  | nil => exact Nat.le_refl _
  | cons e rest ih =>
      exact Nat.le_trans (step_tokens_le s e)
        (by simpa [runEvents, List.foldl] using ih (step s e))

/-- C9: when the `query_ionos` call returns the whitespace-only string
`" "` (non-empty, hence truthy in Python), the fallback is not
substituted: the assistant turn's content is `" "` itself (which differs
from the fallback message), and `conversation_tokens` is unchanged since
the whitespace-delimited word count of `" "` is 0. -/
theorem C9_whitespace_response_kept :
    ∀ (input : String) (s : Session), input ≠ "" →
      (process_user_input (Except.ok " ") input s).1.messages =
        s.messages ++ [⟨Role.user, input⟩, ⟨Role.assistant, " "⟩] ∧
      (process_user_input (Except.ok " ") input s).1.conversation_tokens =
        s.conversation_tokens ∧
      py_word_count " " = 0 ∧ (" " : String) ≠ fallback_response := by
  intro input s h
  have hws : py_word_count " " = 0 := by decide
  refine ⟨?_, ?_, hws, by decide⟩
  · simpa [assistant_reply, show (" " : String) ≠ "" from by decide] using
      process_user_input_messages_eq (Except.ok " ") input s h
  · simp [process_user_input, h, show (" " : String) = "" ↔ False from by simp, hws]

/-- Witness for C9 at input `"ping"` on the fresh session. -/
theorem C9_witness :
    (process_user_input (Except.ok " ") "ping" initSession).1.messages =
      initSession.messages ++ [⟨Role.user, "ping"⟩, ⟨Role.assistant, " "⟩] ∧
    (process_user_input (Except.ok " ") "ping" initSession).1.conversation_tokens =
      initSession.conversation_tokens ∧
    py_word_count " " = 0 ∧ (" " : String) ≠ fallback_response :=
  C9_whitespace_response_kept "ping" initSession (by decide)

/-- C10: `process_user_input` never touches the quick-start dedup
marker: for every call outcome, every input (valid or not) and every
session, `last_quick_start_question` after the call equals its value
before. -/
theorem C10_marker_untouched :
    ∀ (q : Except String String) (input : String) (s : Session),
      (process_user_input q input s).1.last_quick_start_question =
        s.last_quick_start_question := by
  intro q input s
  exact process_user_input_marker_eq q input s
